import Mathlib

/-!
Verification of cross-seed (TypeScript) against its natural-language
specification, via a shallow embedding of the relevant source functions
in Lean 4. Each definition is translated from the source file it names;
definitions whose source is not part of the repository snapshot are
modelled from the spec and say so in their doc comment.
-/

namespace CrossSeed

/-! ## Decisions and searchees (src/constants.ts, src/searchee.ts) -/

/-- The match-family decisions (`DecisionAnyMatch` in src/constants.ts):
`MATCH`, `MATCH_SIZE_ONLY`, `MATCH_PARTIAL`. -/
inductive Decision where
  | MATCH
  | MATCH_SIZE_ONLY
  | MATCH_PARTIAL
  deriving DecidableEq, Repr

/-- One entry of a searchee's flat file list: a relative path and a length. -/
structure FileEntry where
  name : String
  length : Nat
  deriving DecidableEq, Repr

/-- A searchee (src/searchee.ts): a display name and a flat file list. -/
structure Searchee where
  name : String
  files : List FileEntry
  deriving Repr

/-- Modelled from the spec: `VIDEO_DISC_EXTENSIONS` (src/constants.ts is not
in the snapshot); the spec lists the video-disc extensions as
`.iso`, `.vob`, `.bdmv`, `.m2ts`. -/
def VIDEO_DISC_EXTENSIONS : List String := [".iso", ".vob", ".bdmv", ".m2ts"]

/-- Modelled from the spec: `hasExt` (src/utils.ts is not in the snapshot);
whether some file of the list carries one of the given extensions. -/
def hasExt (files : List FileEntry) (exts : List String) : Bool :=
  files.any fun f => exts.any fun e => f.name.endsWith e

/-- src/clients/TorrentClient.ts `shouldRecheck`: recheck after injection
when the decision is `MATCH_PARTIAL` or the searchee holds a video-disc
file; skip for `MATCH` and `MATCH_SIZE_ONLY` otherwise. -/
def shouldRecheck (searchee : Searchee) (decision : Decision) : Bool :=
  if decision = Decision.MATCH_PARTIAL then true
  else if hasExt searchee.files VIDEO_DISC_EXTENSIONS then true
  else false

/-- C1: `shouldRecheck s d` is true exactly when `d` is `MATCH_PARTIAL` or
some file of `s` has a video-disc extension (`.iso`, `.vob`, `.bdmv`,
`.m2ts`); in particular it is false for `MATCH` and `MATCH_SIZE_ONLY`
searchees with no disc-image file. -/
theorem shouldRecheck_iff_partial_or_disc (s : Searchee) (d : Decision) :
    shouldRecheck s d = true ↔
      d = Decision.MATCH_PARTIAL ∨
        ∃ f ∈ s.files, ∃ e ∈ VIDEO_DISC_EXTENSIONS, f.name.endsWith e = true := by
  unfold shouldRecheck hasExt
  by_cases h : d = Decision.MATCH_PARTIAL
  · simp [h]
  · simp [h, List.any_eq_true]

/-! ## Torrent-client selection (src/clients/TorrentClient.ts) -/

/-- The four adapter kinds a `new RTorrent()` / `new QBittorrent()` /
`new Transmission()` / `new Deluge()` instance can have. -/
inductive TorrentClientKind where
  | RTorrent
  | QBittorrent
  | Transmission
  | Deluge
  deriving DecidableEq, Repr

/-- The client RPC-URL part of the runtime config (src/runtimeConfig.ts);
an unset option is `none` (JS `undefined` is falsy). -/
structure ClientUrls where
  rtorrentRpcUrl : Option String
  qbittorrentUrl : Option String
  transmissionRpcUrl : Option String
  delugeRpcUrl : Option String
  deriving Repr

/-- src/clients/TorrentClient.ts `instantiateDownloadClient`: assigns the
module-level `activeClient` by the chain of truthiness tests on the four
RPC URLs; when none is set the assignment does not happen and the previous
value (initially `null`) remains. The state is passed explicitly. -/
def instantiateDownloadClient (cfg : ClientUrls)
    (activeClient : Option TorrentClientKind) : Option TorrentClientKind :=
  if cfg.rtorrentRpcUrl.isSome then some TorrentClientKind.RTorrent
  else if cfg.qbittorrentUrl.isSome then some TorrentClientKind.QBittorrent
  else if cfg.transmissionRpcUrl.isSome then some TorrentClientKind.Transmission
  else if cfg.delugeRpcUrl.isSome then some TorrentClientKind.Deluge
  else activeClient

/-- src/clients/TorrentClient.ts `getClient`: instantiates the client on a
`null` state, then returns it. Result is (returned value, new state). -/
def getClient (cfg : ClientUrls) (activeClient : Option TorrentClientKind) :
    Option TorrentClientKind × Option TorrentClientKind :=
  let s :=
    if activeClient.isNone then instantiateDownloadClient cfg activeClient
    else activeClient
  (s, s)

/-- The (n+1)-th call to `getClient` in a process whose `activeClient`
starts `null` and whose runtime config is frozen after startup. -/
def getClientCalls (cfg : ClientUrls) :
    Nat → Option TorrentClientKind × Option TorrentClientKind
  | 0 => getClient cfg none
  | n + 1 => getClient cfg (getClientCalls cfg n).2

theorem getClient_idem (cfg : ClientUrls) (s : Option TorrentClientKind) :
    getClient cfg (getClient cfg s).2 = getClient cfg s := by
  unfold getClient instantiateDownloadClient
  cases s <;>
    by_cases h1 : cfg.rtorrentRpcUrl.isSome <;>
    by_cases h2 : cfg.qbittorrentUrl.isSome <;>
    by_cases h3 : cfg.transmissionRpcUrl.isSome <;>
    by_cases h4 : cfg.delugeRpcUrl.isSome <;>
    simp [h1, h2, h3, h4]

/-- C2: every call to `getClient` in a process (frozen config, state
started at `null`) returns the same value as the first call — the adapter
is a process-lifetime singleton — and the adapter chosen is decided
first-match-wins by which RPC URL is set: rtorrent, then qbittorrent,
then transmission, then deluge. -/
theorem getClient_singleton_priority (cfg : ClientUrls) :
    (∀ n : Nat, getClientCalls cfg n = getClient cfg none) ∧
    (cfg.rtorrentRpcUrl.isSome = true →
      (getClient cfg none).1 = some TorrentClientKind.RTorrent) ∧
    (cfg.rtorrentRpcUrl = none → cfg.qbittorrentUrl.isSome = true →
      (getClient cfg none).1 = some TorrentClientKind.QBittorrent) ∧
    (cfg.rtorrentRpcUrl = none → cfg.qbittorrentUrl = none →
      cfg.transmissionRpcUrl.isSome = true →
      (getClient cfg none).1 = some TorrentClientKind.Transmission) ∧
    (cfg.rtorrentRpcUrl = none → cfg.qbittorrentUrl = none →
      cfg.transmissionRpcUrl = none → cfg.delugeRpcUrl.isSome = true →
      (getClient cfg none).1 = some TorrentClientKind.Deluge) := by
  refine ⟨?_, ?_, ?_, ?_, ?_⟩
  · intro n
    induction n with
    | zero => rfl
    | succ k ih => rw [getClientCalls, ih, getClient_idem]
  · intro h1
    simp [getClient, instantiateDownloadClient, h1]
  · intro h1 h2
    simp [getClient, instantiateDownloadClient, h1, h2]
  · intro h1 h2 h3
    simp [getClient, instantiateDownloadClient, h1, h2, h3]
  · intro h1 h2 h3 h4
    simp [getClient, instantiateDownloadClient, h1, h2, h3, h4]

/-- C2 witness: at a config with the rtorrent and qbittorrent URLs both
set, rtorrent wins, and all later calls repeat the first one. -/
theorem getClient_singleton_priority_witness :
    (getClient ⟨some "http://r", some "http://q", none, none⟩ none).1 =
        some TorrentClientKind.RTorrent ∧
      getClientCalls ⟨some "http://r", some "http://q", none, none⟩ 3 =
        getClient ⟨some "http://r", some "http://q", none, none⟩ none :=
  ⟨(getClient_singleton_priority ⟨some "http://r", some "http://q", none, none⟩).2.1
      (by decide),
    (getClient_singleton_priority ⟨some "http://r", some "http://q", none, none⟩).1 3⟩

/-- C6 counterexample: with no RPC URL configured there is no stub
("save only") default client — `getClient` returns `null`, so the
pipeline does observe a null client. -/
theorem getClient_no_stub_counterexample :
    (getClient ⟨none, none, none, none⟩ none).1 = none := by
  decide

/-- C6 amended: when no client RPC URL is configured, `getClient` returns
`null` (no stub implementation is selected), on every call. -/
theorem getClient_none_when_unconfigured (cfg : ClientUrls) :
    cfg.rtorrentRpcUrl = none → cfg.qbittorrentUrl = none →
      cfg.transmissionRpcUrl = none → cfg.delugeRpcUrl = none →
      ∀ n : Nat, (getClientCalls cfg n).1 = none := by
  intro h1 h2 h3 h4 n
  induction n with
  | zero => simp [getClientCalls, getClient, instantiateDownloadClient, h1, h2, h3, h4]
  | succ k ih =>
    have hs : (getClientCalls cfg k).2 = (getClientCalls cfg k).1 := by
      cases k <;> rfl
    rw [getClientCalls, getClient, hs, ih]
    simp [instantiateDownloadClient, h1, h2, h3, h4]

/-- C6 witness for the amended claim: the empty config yields a null
client on the fourth call. -/
theorem getClient_none_when_unconfigured_witness :
    (getClientCalls ⟨none, none, none, none⟩ 3).1 = none :=
  getClient_none_when_unconfigured ⟨none, none, none, none⟩ rfl rfl rfl rfl 3

/-! ## Indexer test-connection (indexer service file, `testIndexerConnection`) -/

/-- What `testIndexerConnection` returns: `{ success, message }`. -/
structure TestConnectionResult where
  success : Bool
  message : String
  deriving DecidableEq, Repr

/-- `Response.ok` of the fetch API: the HTTP status lies in 200..299. -/
def responseOk (status : Nat) : Bool := 200 ≤ status && status ≤ 299

/-- `testIndexerConnection` on a completed HTTP response of the caps query:
a non-ok status throws an error (401 and 429 get dedicated messages, any
other status the generic `HTTP <status>: <statusText>` one), the catch
block wraps the message into a failure result; an ok status returns the
success result. Network-level failures (the fetch itself throwing) are
outside this embedding. -/
def testIndexerConnection (status : Nat) (statusText : String) :
    TestConnectionResult :=
  if responseOk status then
    { success := true, message := "Connection successful" }
  else if status = 401 then
    { success := false,
      message := "Connection failed: Authentication failed - check API key" }
  else if status = 429 then
    { success := false, message := "Connection failed: Rate limited by indexer" }
  else
    { success := false,
      message := "Connection failed: HTTP " ++ toString status ++ ": " ++ statusText }

/-- C3: `testIndexerConnection` classifies the caps-query HTTP response:
status 401 yields the invalid-auth outcome, 429 the rate-limited outcome,
any 2xx status the success (OK) outcome, and every other status the
unknown-error outcome (the generic HTTP-status failure message). -/
theorem testIndexerConnection_classifies (status : Nat) (statusText : String) :
    (status = 401 →
      testIndexerConnection status statusText =
        { success := false,
          message := "Connection failed: Authentication failed - check API key" }) ∧
    (status = 429 →
      testIndexerConnection status statusText =
        { success := false,
          message := "Connection failed: Rate limited by indexer" }) ∧
    (200 ≤ status → status ≤ 299 →
      testIndexerConnection status statusText =
        { success := true, message := "Connection successful" }) ∧
    (¬ (200 ≤ status ∧ status ≤ 299) → status ≠ 401 → status ≠ 429 →
      testIndexerConnection status statusText =
        { success := false,
          message :=
            "Connection failed: HTTP " ++ toString status ++ ": " ++ statusText }) := by
  refine ⟨?_, ?_, ?_, ?_⟩
  · intro h
    subst h
    rfl
  · intro h
    subst h
    rfl
  · intro h1 h2
    have hok : responseOk status = true := by
      simp [responseOk]
      omega
    simp [testIndexerConnection, hok]
  · intro h1 h2 h3
    have hok : responseOk status = false := by
      simp [responseOk]
      omega
    simp [testIndexerConnection, hok, h2, h3]

/-- C3 witness: the four classes at the concrete statuses 401, 429, 200
and 500. -/
theorem testIndexerConnection_classifies_witness :
    testIndexerConnection 401 "Unauthorized" =
        { success := false,
          message := "Connection failed: Authentication failed - check API key" } ∧
      testIndexerConnection 429 "Too Many Requests" =
        { success := false, message := "Connection failed: Rate limited by indexer" } ∧
      testIndexerConnection 200 "OK" =
        { success := true, message := "Connection successful" } ∧
      testIndexerConnection 500 "Internal Server Error" =
        { success := false,
          message := "Connection failed: HTTP 500: Internal Server Error" } :=
  ⟨(testIndexerConnection_classifies 401 "Unauthorized").1 rfl,
    (testIndexerConnection_classifies 429 "Too Many Requests").2.1 rfl,
    (testIndexerConnection_classifies 200 "OK").2.2.1 (by decide) (by decide),
    (testIndexerConnection_classifies 500 "Internal Server Error").2.2.2
      (by decide) (by decide) (by decide)⟩

/-! ## The decision table and clear-cache (CLI entry file) -/

/-- One row of the `decision` table (spec §3): `info_hash` is null for a
decision that did not end in a download. -/
structure DecisionRow where
  searchee_name : String
  guid : String
  indexer_id : Nat
  verdict : String
  info_hash : Option String
  deriving DecidableEq, Repr

/-- The database tables the CLI can touch (spec §6 lists `indexer`,
`decision`, `timestamp`, `searchee`, `settings`); for the tables other
than `decision` only identity matters here, so rows are opaque strings. -/
structure Database where
  decision : List DecisionRow
  indexer : List String
  timestampRows : List String
  searcheeRows : List String
  settings : List String
  deriving Repr

/-- The `clear-cache` command body:
`await db("decision").whereNull("info_hash").del()` — delete the decision
rows whose `info_hash` is null; no other table is touched. -/
def clearCache (dbase : Database) : Database :=
  { dbase with
      decision := dbase.decision.filter fun r => r.info_hash.isSome }

/-- C4: `clear-cache` deletes exactly the decision rows whose `info_hash`
is null: a row survives iff it was present and has an infohash, and the
`indexer`, `timestamp`, `searchee` and `settings` tables are unchanged. -/
theorem clearCache_deletes_null_info_hash (dbase : Database) :
    (∀ r : DecisionRow,
      r ∈ (clearCache dbase).decision ↔
        r ∈ dbase.decision ∧ r.info_hash.isSome = true) ∧
    (clearCache dbase).indexer = dbase.indexer ∧
    (clearCache dbase).timestampRows = dbase.timestampRows ∧
    (clearCache dbase).searcheeRows = dbase.searcheeRows ∧
    (clearCache dbase).settings = dbase.settings := by
  refine ⟨?_, rfl, rfl, rfl, rfl⟩
  intro r
  simp [clearCache, List.mem_filter]

/-! ## CLI option defaults (options file, `createCommandWithSharedOptions`) -/

/-- The `Action` constants (src/constants.ts): `save` and `inject`. -/
inductive Action where
  | SAVE
  | INJECT
  deriving DecidableEq, Repr

/-- The file-config fields the shared-option defaults read; `none` is an
absent field of the config file. -/
structure FileConfig where
  maxDataDepth : Option Nat
  fuzzySizeThreshold : Option ℚ
  action : Option Action
  delay : Option ℚ
  port : Option Nat
  searchLimit : Option Int
  snatchTimeout : Option String
  searchTimeout : Option String
  deriving Repr

/-- Modelled from the spec: `fallback` (src/utils.ts is not in the
snapshot); its uses in the options file show it returns its first defined
argument, here the file-config value when present, else the literal. -/
def fallback (x : Option α) (d : α) : α := x.getD d

/-- A commander option's resolved value: the CLI-supplied value when the
flag was given, else the option's `.default(...)` value. -/
def resolveOption (cli : Option α) (dflt : α) : α := cli.getD dflt

/-- `maxDataDepthOption`: `.default(fallback(fileConfig.maxDataDepth, 2))`. -/
def resolvedMaxDataDepth (fc : FileConfig) (cli : Option Nat) : Nat :=
  resolveOption cli (fallback fc.maxDataDepth 2)

/-- `fuzzySizeThresholdOption`:
`.default(fallback(fileConfig.fuzzySizeThreshold, 0.02))`. -/
def resolvedFuzzySizeThreshold (fc : FileConfig) (cli : Option ℚ) : ℚ :=
  resolveOption cli (fallback fc.fuzzySizeThreshold 0.02)

/-- `actionOption`: `.default(fallback(fileConfig.action, Action.SAVE))`. -/
def resolvedAction (fc : FileConfig) (cli : Option Action) : Action :=
  resolveOption cli (fallback fc.action Action.SAVE)

/-- `delayOption`: `.default(fallback(fileConfig.delay, 10))`. -/
def resolvedDelay (fc : FileConfig) (cli : Option ℚ) : ℚ :=
  resolveOption cli (fallback fc.delay 10)

/-- `portOption`: `.default(fallback(fileConfig.port, 2468))`. -/
def resolvedPort (fc : FileConfig) (cli : Option Nat) : Nat :=
  resolveOption cli (fallback fc.port 2468)

/-- `searchLimitOption`: `.default(fallback(fileConfig.searchLimit, 0))`. -/
def resolvedSearchLimit (fc : FileConfig) (cli : Option Int) : Int :=
  resolveOption cli (fallback fc.searchLimit 0)

/-- `snatchTimeoutOption`:
`.default(fallback(fileConfig.snatchTimeout, "30 seconds)"))` — the
default literal in the source carries a stray closing parenthesis. -/
def resolvedSnatchTimeout (fc : FileConfig) (cli : Option String) : String :=
  resolveOption cli (fallback fc.snatchTimeout "30 seconds)")

/-- `searchTimeoutOption`:
`.default(fallback(fileConfig.searchTimeout, "30 seconds)"))` — same
stray closing parenthesis. -/
def resolvedSearchTimeout (fc : FileConfig) (cli : Option String) : String :=
  resolveOption cli (fallback fc.searchTimeout "30 seconds)")

/-- C7: with the flag unset on the command line and the field absent from
the file config, the shared-option defaults are `--max-data-depth 2`,
`--fuzzy-size-threshold 0.02`, `--action save`, `--delay 10`,
`--port 2468` and `--search-limit 0`. -/
theorem sharedOptionDefaults (fc : FileConfig) :
    (fc.maxDataDepth = none → resolvedMaxDataDepth fc none = 2) ∧
    (fc.fuzzySizeThreshold = none → resolvedFuzzySizeThreshold fc none = 0.02) ∧
    (fc.action = none → resolvedAction fc none = Action.SAVE) ∧
    (fc.delay = none → resolvedDelay fc none = 10) ∧
    (fc.port = none → resolvedPort fc none = 2468) ∧
    (fc.searchLimit = none → resolvedSearchLimit fc none = 0) := by
  refine ⟨?_, ?_, ?_, ?_, ?_, ?_⟩ <;>
    intro h <;>
    simp [resolvedMaxDataDepth, resolvedFuzzySizeThreshold, resolvedAction,
      resolvedDelay, resolvedPort, resolvedSearchLimit, resolveOption,
      fallback, h]

/-- The all-absent file config. -/
def emptyFileConfig : FileConfig :=
  { maxDataDepth := none, fuzzySizeThreshold := none, action := none,
    delay := none, port := none, searchLimit := none,
    snatchTimeout := none, searchTimeout := none }

/-- C7 witness: the six defaults at the empty file config. -/
theorem sharedOptionDefaults_witness :
    resolvedMaxDataDepth emptyFileConfig none = 2 ∧
      resolvedFuzzySizeThreshold emptyFileConfig none = 0.02 ∧
      resolvedAction emptyFileConfig none = Action.SAVE ∧
      resolvedDelay emptyFileConfig none = 10 ∧
      resolvedPort emptyFileConfig none = 2468 ∧
      resolvedSearchLimit emptyFileConfig none = 0 :=
  ⟨(sharedOptionDefaults emptyFileConfig).1 rfl,
    (sharedOptionDefaults emptyFileConfig).2.1 rfl,
    (sharedOptionDefaults emptyFileConfig).2.2.1 rfl,
    (sharedOptionDefaults emptyFileConfig).2.2.2.1 rfl,
    (sharedOptionDefaults emptyFileConfig).2.2.2.2.1 rfl,
    (sharedOptionDefaults emptyFileConfig).2.2.2.2.2 rfl⟩

/-- Modelled from the spec: the unit words of the vercel/ms duration
format the spec names for cadence and timeout strings (lower case; the
library also matches case-insensitively). -/
def msUnits : List String :=
  ["years", "year", "yrs", "yr", "y", "weeks", "week", "w", "days", "day", "d",
    "hours", "hour", "hrs", "hr", "h", "minutes", "minute", "mins", "min", "m",
    "seconds", "second", "secs", "sec", "s",
    "milliseconds", "millisecond", "msecs", "msec", "ms"]

/-- Modelled from the spec: whether a string is a well-formed vercel/ms
duration `<digits>[ <unit>]` (a bare number means milliseconds); any
trailing garbage after the unit makes the string invalid. -/
def isMsDuration (s : String) : Bool :=
  let cs := s.toList
  let digits := cs.takeWhile Char.isDigit
  let rest := (cs.drop digits.length).dropWhile (· = ' ')
  !digits.isEmpty && (rest.isEmpty || msUnits.contains (String.mk rest))

/-- C5 (code bug): with no user override, the snatch and search timeout
options default to the literal string `"30 seconds)"` — a stray closing
parenthesis — which is not a well-formed ms-style 30-second duration,
while the intended `"30 seconds"` is. -/
theorem timeoutDefaults_stray_paren :
    resolvedSnatchTimeout emptyFileConfig none = "30 seconds)" ∧
      resolvedSearchTimeout emptyFileConfig none = "30 seconds)" ∧
      resolvedSnatchTimeout emptyFileConfig none ≠ "30 seconds" ∧
      isMsDuration "30 seconds)" = false ∧
      isMsDuration "30 seconds" = true := by
  refine ⟨rfl, rfl, ?_, ?_, ?_⟩ <;> decide

/-! ## The shared runtime wrapper (CLI entry file, `withCrossSeedRuntime`) -/

/-- The observable steps of one command run under the wrapper: config
parsed/validated (`parseRuntimeConfig` returned), startup validation done
(`doStartupValidation` returned), the command body entered, or the
process exited with a code and a reason (`exitOnCrossSeedErrors` on a
`CrossSeedError` — modelled from the spec: src/errors.ts is not in the
snapshot; the spec fixes exit code 1 for an invalid config, with the
error's reason). Logger, push-notifier and migration setup steps carry no
claim-relevant state and are not recorded. -/
inductive RuntimeEvent where
  | parsedConfig
  | startupValidated
  | ranBody
  | exitedWithReason (code : Nat) (reason : String)
  deriving DecidableEq, Repr

/-- `withCrossSeedRuntime`: with `validateConfig` (default `true`) the
options are parsed by `parseRuntimeConfig` (throws `CrossSeedError` on an
invalid config), then `doStartupValidation` runs, then the body; a thrown
`CrossSeedError` reaches `exitOnCrossSeedErrors`. With
`validateConfig = false` (the `test-notification` command) the options
are cast to a runtime config unparsed and the body runs directly. -/
def withCrossSeedRuntime {Cfg : Type} (validateConfig : Bool)
    (parseResult : Except String Cfg)
    (startupValidation : Cfg → Except String Unit) : List RuntimeEvent :=
  if validateConfig then
    match parseResult with
    | Except.error reason => [RuntimeEvent.exitedWithReason 1 reason]
    | Except.ok cfg =>
      match startupValidation cfg with
      | Except.error reason =>
          [RuntimeEvent.parsedConfig, RuntimeEvent.exitedWithReason 1 reason]
      | Except.ok _ =>
          [RuntimeEvent.parsedConfig, RuntimeEvent.startupValidated,
            RuntimeEvent.ranBody]
  else [RuntimeEvent.ranBody]

/-- C8 counterexample: the wrapper invoked with `validateConfig := false`
(as the `test-notification` command does) runs the command body even
though parsing the configuration would fail — no validation happens, no
exit with code 1 — so the claim does not hold of every command run under
the wrapper. -/
theorem withCrossSeedRuntime_skips_validation_counterexample :
    withCrossSeedRuntime false
        (Except.error "Your configuration is invalid" : Except String Unit)
        (fun _ => Except.ok ()) =
      [RuntimeEvent.ranBody] := rfl

/-- C8 amended: for every command run under the wrapper with config
validation enabled (the default; every command but `test-notification`),
the configuration is parsed and startup validation performed before the
body runs, and a failure of either exits with code 1 and the reason,
the body (hence any scheduling loop or serve call) never entered. -/
theorem withCrossSeedRuntime_validates_first {Cfg : Type}
    (parseResult : Except String Cfg)
    (startupValidation : Cfg → Except String Unit) :
    (∀ reason, parseResult = Except.error reason →
      withCrossSeedRuntime true parseResult startupValidation =
          [RuntimeEvent.exitedWithReason 1 reason] ∧
        RuntimeEvent.ranBody ∉
          withCrossSeedRuntime true parseResult startupValidation) ∧
    (∀ cfg reason, parseResult = Except.ok cfg →
      startupValidation cfg = Except.error reason →
      withCrossSeedRuntime true parseResult startupValidation =
          [RuntimeEvent.parsedConfig, RuntimeEvent.exitedWithReason 1 reason] ∧
        RuntimeEvent.ranBody ∉
          withCrossSeedRuntime true parseResult startupValidation) ∧
    (∀ cfg, parseResult = Except.ok cfg →
      startupValidation cfg = Except.ok () →
      withCrossSeedRuntime true parseResult startupValidation =
        [RuntimeEvent.parsedConfig, RuntimeEvent.startupValidated,
          RuntimeEvent.ranBody]) := by
  refine ⟨?_, ?_, ?_⟩
  · intro reason h
    subst h
    exact ⟨rfl, by simp [withCrossSeedRuntime]⟩
  · intro cfg reason hp hv
    subst hp
    refine ⟨?_, ?_⟩ <;> simp [withCrossSeedRuntime, hv]
  · intro cfg hp hv
    subst hp
    simp [withCrossSeedRuntime, hv]

/-- C8 witness for the amended claim: a concretely invalid configuration
exits with code 1 and its reason, the body never run. -/
theorem withCrossSeedRuntime_validates_first_witness :
    withCrossSeedRuntime true
          (Except.error "Your configuration is invalid, please see the error above for details." :
            Except String Unit) (fun _ => Except.ok ()) =
        [RuntimeEvent.exitedWithReason 1
          "Your configuration is invalid, please see the error above for details."] ∧
      RuntimeEvent.ranBody ∉
        withCrossSeedRuntime true
          (Except.error "Your configuration is invalid, please see the error above for details." :
            Except String Unit) (fun _ => Except.ok ()) :=
  (withCrossSeedRuntime_validates_first
      (Except.error "Your configuration is invalid, please see the error above for details.")
      (fun _ => Except.ok ())).1
    "Your configuration is invalid, please see the error above for details." rfl

/-! ## Indexer creation and update (indexer service file) -/

/-- One row of the `indexer` table, the fields the service functions
touch (the capability columns are inserted as null and never compared). -/
structure IndexerRow where
  id : Nat
  name : Option String
  url : String
  apikey : String
  active : Bool
  deriving DecidableEq, Repr

/-- `indexerCreateSchema` input: `active` defaults to true downstream,
`name` may be absent (`input.name || null`). -/
structure IndexerCreateInput where
  name : Option String
  url : String
  apikey : String
  active : Option Bool
  deriving Repr

/-- `indexerUpdateSchema` input: each field is updated only when present;
`name` may be set to null, hence the nested option. -/
structure IndexerUpdateInput where
  id : Nat
  name : Option (Option String)
  url : Option String
  apikey : Option String
  active : Option Bool
  deriving Repr

/-- `createIndexer`: sanitizes the URL, errors (inserting nothing) when a
row with that sanitized URL exists, else appends the new row with the
sanitized URL. `sanitizeUrl` (src/utils.ts, not in the snapshot) is kept
abstract: the theorems hold for every canonicalization function. -/
def createIndexer (sanitizeUrl : String → String) (table : List IndexerRow)
    (newId : Nat) (input : IndexerCreateInput) : Except String (List IndexerRow) :=
  let sanitizedUrl := sanitizeUrl input.url
  if table.any fun r => r.url == sanitizedUrl then
    Except.error ("Indexer with URL " ++ sanitizedUrl ++ " already exists")
  else
    Except.ok (table ++
      [{ id := newId, name := input.name, url := sanitizedUrl,
         apikey := input.apikey, active := input.active.getD true }])

/-- The update object `updateIndexer` builds: present fields overwrite,
a present `url` is written sanitized. -/
def applyIndexerUpdate (sanitizeUrl : String → String)
    (input : IndexerUpdateInput) (r : IndexerRow) : IndexerRow :=
  { r with
      name := input.name.getD r.name
      url := (input.url.map sanitizeUrl).getD r.url
      apikey := input.apikey.getD r.apikey
      active := input.active.getD r.active }

/-- `updateIndexer`: errors when no row has the id, else rewrites the row
with that id through `applyIndexerUpdate`. -/
def updateIndexer (sanitizeUrl : String → String) (table : List IndexerRow)
    (input : IndexerUpdateInput) : Except String (List IndexerRow) :=
  if table.any fun r => r.id == input.id then
    Except.ok (table.map fun r =>
      if r.id = input.id then applyIndexerUpdate sanitizeUrl input r else r)
  else
    Except.error ("Indexer with ID " ++ toString input.id ++ " not found")

/-- C9: `createIndexer` stores the sanitized URL and throws — inserting
nothing — when a row with the same sanitized URL exists, so it preserves
the no-two-rows-share-a-canonical-URL invariant; `updateIndexer`
sanitizes any URL it writes. -/
theorem createIndexer_canonical_url_invariant (sanitizeUrl : String → String)
    (table : List IndexerRow) (newId : Nat) (input : IndexerCreateInput)
    (uinput : IndexerUpdateInput) :
    ((∃ r ∈ table, r.url = sanitizeUrl input.url) →
      createIndexer sanitizeUrl table newId input =
        Except.error
          ("Indexer with URL " ++ sanitizeUrl input.url ++ " already exists")) ∧
    ((∀ r ∈ table, r.url ≠ sanitizeUrl input.url) →
      createIndexer sanitizeUrl table newId input =
        Except.ok (table ++
          [{ id := newId, name := input.name, url := sanitizeUrl input.url,
             apikey := input.apikey, active := input.active.getD true }])) ∧
    ((table.map IndexerRow.url).Nodup →
      ∀ out, createIndexer sanitizeUrl table newId input = Except.ok out →
        (out.map IndexerRow.url).Nodup) ∧
    (∀ u out, uinput.url = some u →
      updateIndexer sanitizeUrl table uinput = Except.ok out →
      ∀ r ∈ out, r.id = uinput.id → r.url = sanitizeUrl u) := by
  refine ⟨?_, ?_, ?_, ?_⟩
  · intro h
    have ha : (table.any fun r => r.url == sanitizeUrl input.url) = true := by
      simp only [List.any_eq_true, beq_iff_eq]
      exact h
    simp [createIndexer, ha]
  · intro h
    have ha : (table.any fun r => r.url == sanitizeUrl input.url) = false := by
      simp only [List.any_eq_false, beq_iff_eq]
      exact h
    simp [createIndexer, ha]
  · intro hnd out hok
    by_cases ha : (table.any fun r => r.url == sanitizeUrl input.url) = true
    · simp [createIndexer, ha] at hok
    · have ha' : (table.any fun r => r.url == sanitizeUrl input.url) = false := by
        simpa using ha
      simp only [createIndexer, ha', Bool.false_eq_true, if_false,
        Except.ok.injEq] at hok
      subst hok
      rw [List.map_append, List.nodup_append]
      refine ⟨hnd, by simp, ?_⟩
      intro a hm hb
      simp only [List.map_cons, List.map_nil, List.mem_cons,
        List.not_mem_nil, or_false] at hb
      subst hb
      simp only [List.any_eq_false, beq_iff_eq] at ha'
      simp only [List.mem_map] at hm
      obtain ⟨r, hr, hru⟩ := hm
      exact ha' r hr hru
  · intro u out hu hok r hr hid
    by_cases ha : (table.any fun r => r.id == uinput.id) = true
    · simp only [updateIndexer, ha, if_true, Except.ok.injEq] at hok
      subst hok
      simp only [List.mem_map] at hr
      obtain ⟨a, _, hfa⟩ := hr
      by_cases hca : a.id = uinput.id
      · rw [if_pos hca] at hfa
        subst hfa
        simp [applyIndexerUpdate, hu]
      · rw [if_neg hca] at hfa
        subst hfa
        exact absurd hid hca
    · simp [updateIndexer, ha] at hok

/-- C9 witness: with the identity canonicalization, creating an indexer
whose URL collides with the one existing row errors; with a fresh URL it
appends the sanitized row; and an update writing a URL stores it on the
matching row. -/
theorem createIndexer_canonical_url_invariant_witness :
    createIndexer id
          [{ id := 1, name := none, url := "https://a/api", apikey := "k",
             active := true }] 2
          { name := none, url := "https://a/api", apikey := "k2",
            active := none } =
        Except.error "Indexer with URL https://a/api already exists" ∧
      (∀ r ∈ ([{ id := 1, name := none, url := "https://a/api", apikey := "k",
                  active := true }] : List IndexerRow), r.id = 1 →
        r.url = id "https://a/api") :=
  ⟨((createIndexer_canonical_url_invariant id
        [{ id := 1, name := none, url := "https://a/api", apikey := "k",
           active := true }] 2
        { name := none, url := "https://a/api", apikey := "k2", active := none }
        { id := 1, name := none, url := some "https://a/api", apikey := none,
          active := none }).1
      ⟨{ id := 1, name := none, url := "https://a/api", apikey := "k",
         active := true }, by simp, rfl⟩),
    ((createIndexer_canonical_url_invariant id
        [{ id := 1, name := none, url := "https://a/api", apikey := "k",
           active := true }] 2
        { name := none, url := "https://a/api", apikey := "k2", active := none }
        { id := 1, name := none, url := some "https://a/api", apikey := none,
          active := none }).2.2.2
      "https://a/api"
      [{ id := 1, name := none, url := "https://a/api", apikey := "k",
         active := true }] rfl rfl)⟩

/-! ## The settings-table migration (migration file `04-auth`) -/

/-- The column names `up` adds to the `settings` table, in source order. -/
def migrationUpColumns : List String :=
  ["torznab", "use_client_torrents", "data_dirs", "match_mode", "skip_recheck",
    "auto_resume_max_download", "link_category", "link_dirs", "flat_linking",
    "link_type", "max_data_depth", "torrent_dir", "output_dir",
    "include_non_videos", "season_from_episodes", "fuzzy_size_threshold",
    "exclude_older", "exclude_recent_search", "action", "rtorrent_rpc_url",
    "qbittorrent_url", "transmission_rpc_url", "deluge_rpc_url",
    "duplicate_categories", "notification_webhook_urls", "delay",
    "snatch_timeout", "search_timeout", "search_limit", "block_list",
    "sonarr", "radarr", "port", "host", "search_cadence", "rss_cadence"]

/-- The column names `down` drops from the `settings` table, in source
order. -/
def migrationDownColumns : List String :=
  ["torznab", "use_client_torrents", "data_dirs", "match_mode", "skip_recheck",
    "auto_resume_max_download", "link_category", "link_dirs", "flat_linking",
    "link_type", "max_data_depth", "torrent_dir", "output_dir",
    "include_non_videos", "season_from_episodes", "fuzzy_size_threshold",
    "exclude_older", "exclude_recent_search", "action", "rtorrent_rpc_url",
    "qbittorrent_url", "transmission_rpc_url", "deluge_rpc_url",
    "duplicate_categories", "notification_webhook_urls", "delay",
    "snatch_timeout", "search_timeout", "search_limit", "block_list",
    "sonarr", "radarr", "port", "host", "search_cadence", "rss_cadence"]

/-- `up` on the settings schema (a schema is its list of column names):
`alterTable` appends the added columns. -/
def migrationUp (schema : List String) : List String :=
  schema ++ migrationUpColumns

/-- `down` on the settings schema: `dropColumn` removes each named
column. -/
def migrationDown (schema : List String) : List String :=
  schema.filter fun c => ¬ migrationDownColumns.contains c

/-- C10: the columns `down` drops are exactly the columns `up` adds, so
on any prior schema holding none of the added names, `up` then `down` is
the identity on the settings schema. -/
theorem migration_up_down_round_trip (schema : List String) :
    migrationDownColumns = migrationUpColumns ∧
      ((∀ c ∈ schema, c ∉ migrationUpColumns) →
        migrationDown (migrationUp schema) = schema) := by
  constructor
  · rfl
  · intro h
    unfold migrationDown migrationUp
    rw [List.filter_append]
    have h1 : (schema.filter fun c => ¬ migrationDownColumns.contains c) = schema := by
      apply List.filter_eq_self.mpr
      intro c hc
      simpa using h c hc
    have h2 : (migrationUpColumns.filter
        fun c => ¬ migrationDownColumns.contains c) = [] := by
      decide
    rw [h1, h2, List.append_nil]

/-- C10 witness: the settings table's prior columns (none among the added
set) survive the round trip unchanged. -/
theorem migration_up_down_round_trip_witness :
    migrationDown (migrationUp ["id", "apikey", "version"]) =
      ["id", "apikey", "version"] :=
  (migration_up_down_round_trip ["id", "apikey", "version"]).2 (by decide)

end CrossSeed
